import Mathlib

/-!
Shallow embedding of the `avionics_main` repository:
`modules/Config.py`, `modules/simulation/drag.py` and `src/Avionics.py`.

Python floats are modelled as exact rationals; the transcendental library
functions the drag model calls (`math.atan`, `math.asin`, `math.log10`,
float `**` with a non-integer exponent, `math.pi`, `math.e`) are abstracted
as an oracle record `MathOps`, so every definition stays executable and
every structural fact is proved for all oracles at once.  Python's float
power on a negative base yields a complex number; complex values are
modelled as pairs of rationals (`CQ`).
-/

/- ===== modules/Config.py ===== -/

namespace ConfigDefaults

/-- Module-level constant `DEBUG = False`. -/
def DEBUG : Bool := false

/-- Module-level constant `PARACHUTE_CHARGE_TIME = 0.5`. -/
def PARACHUTE_CHARGE_TIME : ℚ := 0.5

/-- Module-level constant `APOGEE_DELAY = 0`. -/
def APOGEE_DELAY : ℚ := 0

/-- Module-level constant `MAIN_ALTITUDE = 1000`. -/
def MAIN_ALTITUDE : ℚ := 1000

/-- Module-level constant `MAIN_DELAY = 0`. -/
def MAIN_DELAY : ℚ := 0

end ConfigDefaults

/-- The `Config` class of `modules/Config.py`: the attributes its
`__init__` assigns. -/
structure Config where
  DEBUG : Bool
  Test : Bool
  PARACHUTE_CHARGE_TIME : ℚ
  APOGEE_DELAY : ℚ
  MAIN_ALTITUDE : ℚ
  MAIN_DELAY : ℚ

/-- `Config.__init__`: `DEBUG = True`, `Test = False`,
`PARACHUTE_CHARGE_TIME = 0.5`, `APOGEE_DELAY = 0`, `MAIN_ALTITUDE = 1000`,
`MAIN_DELAY = 0`. -/
def Config.init : Config :=
  ⟨true, false, 0.5, 0, 1000, 0⟩

/- ===== src/Avionics.py ===== -/

/-- The configuration object consulted by `Avionics.main_process`
(the fields the loop reads or writes: `shutdown`, `FIDI`, `DEBUG`, `SIM`,
`state`, `last_state`).  The class implementing it is not part of the
repository sources; only these observed fields matter to the loop. -/
structure AvConfig where
  shutdown : Bool
  FIDI : Bool
  DEBUG : Bool
  SIM : Bool
  state : String
  last_state : String

/-- The loop guard of `Avionics.main_process`:
`while (not self.conf.shutdown) or (self.conf.FIDI)`. -/
def mainGuard (c : AvConfig) : Bool :=
  (!c.shutdown) || c.FIDI

/-- The `if self.conf.SIM: if self.conf.state == "IDLE": self.conf.state = "ARM"`
update performed by the loop body (the hook activation and the operator
prompts do not change these fields). -/
def simStep (c : AvConfig) : AvConfig :=
  if c.SIM && (c.state == "IDLE") then
    ⟨c.shutdown, c.FIDI, c.DEBUG, c.SIM, "ARM", c.last_state⟩
  else c

/-- One iteration of the loop body: the SIM-mode state forcing followed by
`self.rocket_state.act()`.  `State.act` is not among the repository sources,
so its effect on the configuration is an arbitrary function `act`. -/
def loopBody (act : AvConfig → AvConfig) (c : AvConfig) : AvConfig :=
  act (simStep c)

/-- Fuel-bounded unfolding of `Avionics.main_process`: while the guard
holds, run another iteration of the body. -/
def main_process (act : AvConfig → AvConfig) : Nat → AvConfig → AvConfig
  | 0, c => c
  | fuel + 1, c =>
      if mainGuard c then main_process act fuel (loopBody act c) else c

/- ===== modules/simulation/drag.py ===== -/

/-- A complex value as Python produces it from float `**` on a negative
base: a pair of (exact) real and imaginary parts. -/
structure CQ where
  re : ℚ
  im : ℚ
deriving DecidableEq

/-- Embed a real value. -/
def CQ.ofRat (q : ℚ) : CQ := ⟨q, 0⟩

/-- Complex addition. -/
def CQ.add (x y : CQ) : CQ := ⟨x.re + y.re, x.im + y.im⟩

/-- Complex subtraction. -/
def CQ.sub (x y : CQ) : CQ := ⟨x.re - y.re, x.im - y.im⟩

/-- Complex multiplication. -/
def CQ.mul (x y : CQ) : CQ :=
  ⟨x.re * y.re - x.im * y.im, x.re * y.im + x.im * y.re⟩

/-- Multiplication by a real scalar. -/
def CQ.smul (q : ℚ) (x : CQ) : CQ := ⟨q * x.re, q * x.im⟩

/-- Complex division. -/
def CQ.div (x y : CQ) : CQ :=
  let d := y.re ^ 2 + y.im ^ 2
  ⟨(x.re * y.re + x.im * y.im) / d, (x.im * y.re - x.re * y.im) / d⟩

/-- The transcendental primitives `drag.py` imports (`math.atan`,
`math.asin`, `math.log10`, `math.pi`, `math.e`) and Python's float power
with a non-integer exponent: `rpow` for the uses whose result is treated
as a real number, `cpow` for the uses whose result may be complex
(negative base).  Abstracted so the embedding is executable and the
structural theorems hold for every implementation. -/
structure MathOps where
  pi : ℚ
  eConst : ℚ
  atan : ℚ → ℚ
  asin : ℚ → ℚ
  log10 : ℚ → ℚ
  rpow : ℚ → ℚ → ℚ
  cpow : ℚ → ℚ → CQ

/-- A concrete oracle (all primitives zero), used only to build concrete
`Rocket` values in closed computations whose result does not depend on the
oracle. -/
def ops0 : MathOps :=
  ⟨0, 0, fun _ => 0, fun _ => 0, fun _ => 0, fun _ _ => 0,
    fun _ _ => CQ.ofRat 0⟩

/-- The Mach/velocity conversion factor `0.0008957066031914082` of
`Rocket.__init__`. -/
def machConv : ℚ := 0.0008957066031914082

/-- The attributes `Rocket.__init__` assigns. -/
structure Rocket where
  verbose : Bool
  nose_cone_length : ℚ
  body_tube_length : ℚ
  length : ℚ
  radius : ℚ
  boat_tail_radius : ℚ
  diameter : ℚ
  velocity : ℚ
  M : ℚ
  K : ℚ
  number_of_fins : ℚ
  fin_length : ℚ
  fin_height_long : ℚ
  fin_height_short : ℚ
  fin_thickness : ℚ
  fin_lambda : ℚ
  x : ℚ
  K_f : ℚ
  S_B : ℚ

/-- `Rocket.__init__(verbose, mach)`.  When `mach == 0` the default
airspeed 143.4 is used and converted to Mach; otherwise Mach is taken as
given and the airspeed derived from it. -/
def Rocket.init (ops : MathOps) (verbose : Bool) (mach : ℚ) : Rocket :=
  let nose_cone_length : ℚ := 1.333
  let body_tube_length : ℚ := 5.333
  let radius : ℚ := 0.1666
  let boat_tail_radius : ℚ := 0.1666
  let diameter := 2 * radius
  let velocity : ℚ := if mach = 0 then 143.4 else mach / machConv
  let M : ℚ := if mach = 0 then 143.4 * machConv else mach
  let fin_length : ℚ := 0.333
  let fin_height_long : ℚ := 1
  let fin_height_short : ℚ := 0.333
  -- local `a` of `__init__`, the nose ogive radius used for the wetted area
  let aa := (radius ^ 2 + nose_cone_length ^ 2) / (2 * radius)
  let S_B := 2 * ops.pi *
    ((radius - aa) * ops.asin (nose_cone_length / aa) + nose_cone_length)
  ⟨verbose, nose_cone_length, body_tube_length,
    nose_cone_length + body_tube_length, radius, boat_tail_radius, diameter,
    velocity, M, 0.0004, 4, fin_length, fin_height_long, fin_height_short,
    0.0833, fin_height_short / fin_height_long, fin_length / 8, 1.04, S_B⟩

/-- `Rocket.a(h)`: speed of sound in ft/s (reads no attribute). -/
def Rocket.a (_r : Rocket) (h : ℚ) : ℚ :=
  if h ≤ 37000 then -0.004 * h + 1116.45
  else if h ≤ 64000 then 968.08
  else 0.0007 * h + 924.99

/-- `Rocket.v(h)`: kinematic viscosity (computed by the class but not
consumed by the drag total). -/
def Rocket.v (ops : MathOps) (_r : Rocket) (h : ℚ) : ℚ :=
  let p : ℚ × ℚ :=
    if h ≤ 15000 then (0.00002503, 0)
    else if h ≤ 30000 then (0.00002760, -0.03417)
    else (0.00004664, -0.6882)
  0.000157 * ops.rpow ops.eConst (p.1 * h + p.2)

/-- `Rocket.Rn_star(h)`: compressible Reynolds number proxy.  Note the
literal `0.043 * self.M*2` of the source. -/
def Rocket.Rn_star (r : Rocket) (h : ℚ) : ℚ :=
  (r.a h * r.M * (r.body_tube_length + r.nose_cone_length) /
      (12 * r.velocity)) *
    (1 + 0.0283 * r.M - 0.043 * r.M * 2 + 0.2107 * r.M ^ 3 -
      0.03829 * r.M ^ 4 + 0.002709 * r.M ^ 5)

/-- `Rocket.C_f_star(h)`. -/
def Rocket.C_f_star (ops : MathOps) (r : Rocket) (h : ℚ) : ℚ :=
  0.037036 * ops.rpow (r.Rn_star h) (-0.155079)

/-- `Rocket.C_f(h)`. -/
def Rocket.C_f (ops : MathOps) (r : Rocket) (h : ℚ) : ℚ :=
  r.C_f_star ops h *
    (1 + 0.00798 * r.M - 0.1813 * r.M ^ 2 + 0.0632 * r.M ^ 3 -
      0.00933 * r.M ^ 4 + 0.000549 * r.M ^ 5)

/-- `Rocket.C_f_term_star()`. -/
def Rocket.C_f_term_star (ops : MathOps) (r : Rocket) : ℚ :=
  1 / ops.rpow
      (1.89 + 1.62 * ops.log10
        ((r.body_tube_length + r.nose_cone_length) / r.K)) 2.5

/-- `Rocket.C_f_term()`. -/
def Rocket.C_f_term (ops : MathOps) (r : Rocket) : ℚ :=
  r.C_f_term_star ops / (1 + 0.2044 * r.M ^ 2)

/-- `Rocket.C_f_final(h)`: the larger of `C_f(h)` and `C_f_term()`. -/
def Rocket.C_f_final (ops : MathOps) (r : Rocket) (h : ℚ) : ℚ :=
  if r.C_f ops h ≥ r.C_f_term ops then r.C_f ops h else r.C_f_term ops

/-- `Rocket.body_friction_drag(h)`. -/
def Rocket.body_friction_drag (ops : MathOps) (r : Rocket) (h : ℚ) : ℚ :=
  r.C_f_final ops h *
    (1 + 60 / ((r.body_tube_length + r.nose_cone_length) / r.diameter) ^ 3 +
      0.0025 * (r.body_tube_length / r.diameter)) *
    ((4 * r.S_B) / (ops.pi * r.diameter ^ 2))

/-- `Rocket.R_n(h)`: fin-local Reynolds number. -/
def Rocket.R_n (r : Rocket) (h : ℚ) : ℚ :=
  r.a h * r.M * r.fin_height_long / (12 * r.velocity)

/-- `Rocket.C_f_lambda(h)`: taper-ratio correction; the powers of the
(negative) `log10` values are complex in Python, and the method returns
`val.real`. -/
def Rocket.C_f_lambda (ops : MathOps) (r : Rocket) (h : ℚ) : ℚ :=
  let l := r.fin_height_short / r.fin_height_long
  let p26 := ops.cpow (ops.log10 (r.R_n h)) 2.6
  let q26 := ops.cpow (ops.log10 (r.R_n h * l)) 2.6
  let p36 := ops.cpow (ops.log10 (r.R_n h)) 3.6
  let q36 := ops.cpow (ops.log10 (r.R_n h * l)) 3.6
  let val :=
    CQ.smul (r.C_f_final ops h)
      (CQ.mul (CQ.smul (1 / (l ^ 2 - 1)) p26)
        (CQ.add
          (CQ.sub (CQ.div (CQ.ofRat (l ^ 2)) q26)
            (CQ.div (CQ.ofRat 1) p26))
          (CQ.smul 0.5646
            (CQ.sub (CQ.div (CQ.ofRat (l ^ 2)) q36)
              (CQ.div (CQ.ofRat 1) p36)))))
  val.re

/-- `Rocket.fin_friction_drag(h)`. -/
def Rocket.fin_friction_drag (ops : MathOps) (r : Rocket) (h : ℚ) : ℚ :=
  r.C_f_lambda ops h *
    (1 + 60 * (r.fin_thickness / r.fin_height_long) ^ 4 +
      0.8 * (1 + 5 * ((r.x / r.fin_height_long) ^ 2)) *
        (r.fin_thickness / r.fin_height_long) *
        (4 * r.number_of_fins *
            (r.fin_length / (r.fin_height_long + r.fin_height_short)) /
          (ops.pi * r.diameter ^ 2)))

/-- `Rocket.protuberance_friction_drag()`: assumed negligible. -/
def Rocket.protuberance_friction_drag (_r : Rocket) : ℚ := 0

/-- `Rocket.excrescencies_friction_drag()`. -/
def Rocket.excrescencies_friction_drag (ops : MathOps) (r : Rocket) : ℚ :=
  let k : ℚ :=
    if r.M < 0.78 then 0.00038
    else if r.M ≤ 1.04 then
      -0.4501 * r.M ^ 4 + 1.5954 * r.M ^ 3 - 2.1062 * r.M ^ 2 +
        1.2288 * r.M - 0.26717
    else
      0.0002 * r.M ^ 2 - 0.0012 * r.M + 0.0018
  k * 4 * r.S_B / (ops.pi * (2 * r.radius) ^ 2)

/-- `Rocket.skin_friction_drag(h)`. -/
def Rocket.skin_friction_drag (ops : MathOps) (r : Rocket) (h : ℚ) : ℚ :=
  r.body_friction_drag ops h +
    r.K_f * r.fin_friction_drag ops h +
    r.K_f * r.protuberance_friction_drag +
    r.excrescencies_friction_drag ops

/-- `Rocket.n()`: boat-tail exponent. -/
def Rocket.n (ops : MathOps) (r : Rocket) : ℚ :=
  3.6542 * ops.rpow (r.body_tube_length / r.diameter) (-0.2733)

/-- `Rocket.K_b()`. -/
def Rocket.K_b (ops : MathOps) (r : Rocket) : ℚ :=
  0.0274 * ops.atan (r.body_tube_length / r.diameter + 0.0116)

/-- `Rocket.base_drag(h)`: raw term, then the Mach-regime multiplier of
the nested `if self.M > 0.6` block. -/
def Rocket.base_drag (ops : MathOps) (r : Rocket) (h : ℚ) : ℚ :=
  let b_d := r.K_b ops *
    (ops.rpow (r.boat_tail_radius / r.radius) (r.n ops) /
      ops.rpow (r.skin_friction_drag ops h) (1 / 2))
  if r.M > 0.6 then
    if r.M < 1 then b_d * (1 + 215.8 * (r.M - 0.6) ^ 6)
    else if r.M < 2 then
      b_d * (2.0881 * (r.M - 1) ^ 3 - 3.7938 * (r.M - 1) ^ 2 +
        1.4618 * (r.M - 1) + 1.883917)
    else
      b_d * (0.297 * (r.M - 2) ^ 3 - 0.7937 * (r.M - 2) ^ 2 -
        0.1115 * (r.M - 2) + 1.64006)
  else b_d

/-- `Rocket.M_d()`: drag-divergence Mach number. -/
def Rocket.M_d (r : Rocket) : ℚ :=
  -0.0156 * (r.nose_cone_length / (2 * r.radius)) ^ 2 +
    0.136 * (r.nose_cone_length / (2 * r.radius)) + 0.6817

/-- `Rocket.M_f()`: final transonic Mach number. -/
def Rocket.M_f (ops : MathOps) (r : Rocket) : ℚ :=
  let le := r.nose_cone_length + r.body_tube_length
  let d := 2 * r.radius
  let ln_le := r.nose_cone_length / le
  let p : ℚ × ℚ :=
    if ln_le < 0.2 then (2.4, -1.05)
    else
      (-321.94 * ln_le ^ 2 + 264.07 * ln_le - 36.348,
        19.634 * ln_le ^ 2 - 18.369 * ln_le + 1.7434)
  p.1 * ops.rpow (le / d) p.2 + 1.0275

/-- `Rocket.C_d_max()`: maximum transonic drag rise. -/
def Rocket.C_d_max (ops : MathOps) (r : Rocket) : ℚ :=
  let le := r.nose_cone_length + r.body_tube_length
  let ln_lb := r.nose_cone_length / r.body_tube_length
  let d := 2 * r.radius
  let c := 50.676 * ln_lb ^ 2 - 51.734 * ln_lb + 15.642
  let g := -2.2538 * ln_lb ^ 2 + 1.3108 * ln_lb - 1.7344
  if le / d > 6 then c * ops.rpow (le / d) g else c * ops.rpow 6 g

/-- `Rocket.transonic_wave_drag()`. -/
def Rocket.transonic_wave_drag (ops : MathOps) (r : Rocket) : ℚ :=
  if r.M_d ≤ r.M ∧ r.M ≤ r.M_f ops then r.C_d_max ops else 0

/-- `Rocket.supersonic_wave_drag()`: not modeled. -/
def Rocket.supersonic_wave_drag (_r : Rocket) : ℚ := 0

/-- `Rocket.drag_coefficient(h)`: sum of the four contributions. -/
def Rocket.drag_coefficient (ops : MathOps) (r : Rocket) (h : ℚ) : ℚ :=
  r.skin_friction_drag ops h + r.base_drag ops h +
    r.transonic_wave_drag ops + r.supersonic_wave_drag

/- ===== state-threading versions of the Rocket methods =====

Python methods receive the mutable object `self`; the faithful embedding
of a method is therefore a function `Rocket → value × Rocket` returning
the (possibly updated) object.  Every call another method makes is
threaded through the object state in source evaluation order, so that the
absence of attribute mutation is a theorem rather than an artefact of a
purely functional translation. -/

/-- `Rocket.a(h)` as a state transformer. -/
def Rocket.a_st (r : Rocket) (h : ℚ) : ℚ × Rocket := (r.a h, r)

/-- `Rocket.v(h)` as a state transformer. -/
def Rocket.v_st (ops : MathOps) (r : Rocket) (h : ℚ) : ℚ × Rocket :=
  (Rocket.v ops r h, r)

/-- `Rocket.Rn_star(h)` as a state transformer. -/
def Rocket.Rn_star_st (r : Rocket) (h : ℚ) : ℚ × Rocket :=
  let s := r.a_st h
  ((s.1 * s.2.M * (s.2.body_tube_length + s.2.nose_cone_length) /
      (12 * s.2.velocity)) *
    (1 + 0.0283 * s.2.M - 0.043 * s.2.M * 2 + 0.2107 * s.2.M ^ 3 -
      0.03829 * s.2.M ^ 4 + 0.002709 * s.2.M ^ 5), s.2)

/-- `Rocket.C_f_star(h)` as a state transformer. -/
def Rocket.C_f_star_st (ops : MathOps) (r : Rocket) (h : ℚ) : ℚ × Rocket :=
  let s := r.Rn_star_st h
  (0.037036 * ops.rpow s.1 (-0.155079), s.2)

/-- `Rocket.C_f(h)` as a state transformer. -/
def Rocket.C_f_st (ops : MathOps) (r : Rocket) (h : ℚ) : ℚ × Rocket :=
  let s := r.C_f_star_st ops h
  (s.1 *
    (1 + 0.00798 * s.2.M - 0.1813 * s.2.M ^ 2 + 0.0632 * s.2.M ^ 3 -
      0.00933 * s.2.M ^ 4 + 0.000549 * s.2.M ^ 5), s.2)

/-- `Rocket.C_f_term_star()` as a state transformer. -/
def Rocket.C_f_term_star_st (ops : MathOps) (r : Rocket) : ℚ × Rocket :=
  (r.C_f_term_star ops, r)

/-- `Rocket.C_f_term()` as a state transformer. -/
def Rocket.C_f_term_st (ops : MathOps) (r : Rocket) : ℚ × Rocket :=
  let s := r.C_f_term_star_st ops
  (s.1 / (1 + 0.2044 * s.2.M ^ 2), s.2)

/-- `Rocket.C_f_final(h)` as a state transformer (the source evaluates
`C_f(h)` and `C_f_term()` again in the returned branch). -/
def Rocket.C_f_final_st (ops : MathOps) (r : Rocket) (h : ℚ) : ℚ × Rocket :=
  let s1 := r.C_f_st ops h
  let s2 := s1.2.C_f_term_st ops
  if s1.1 ≥ s2.1 then s2.2.C_f_st ops h else s2.2.C_f_term_st ops

/-- `Rocket.body_friction_drag(h)` as a state transformer. -/
def Rocket.body_friction_drag_st (ops : MathOps) (r : Rocket) (h : ℚ) :
    ℚ × Rocket :=
  let s := r.C_f_final_st ops h
  (s.1 *
    (1 + 60 / ((s.2.body_tube_length + s.2.nose_cone_length) / s.2.diameter) ^ 3 +
      0.0025 * (s.2.body_tube_length / s.2.diameter)) *
    ((4 * s.2.S_B) / (ops.pi * s.2.diameter ^ 2)), s.2)

/-- `Rocket.R_n(h)` as a state transformer. -/
def Rocket.R_n_st (r : Rocket) (h : ℚ) : ℚ × Rocket :=
  let s := r.a_st h
  (s.1 * s.2.M * s.2.fin_height_long / (12 * s.2.velocity), s.2)

/-- `Rocket.C_f_lambda(h)` as a state transformer (`C_f_final` once and
`R_n` five times, in source evaluation order). -/
def Rocket.C_f_lambda_st (ops : MathOps) (r : Rocket) (h : ℚ) : ℚ × Rocket :=
  let l := r.fin_height_short / r.fin_height_long
  let s0 := r.C_f_final_st ops h
  let s1 := s0.2.R_n_st h
  let s2 := s1.2.R_n_st h
  let s3 := s2.2.R_n_st h
  let s4 := s3.2.R_n_st h
  let s5 := s4.2.R_n_st h
  let p26 := ops.cpow (ops.log10 s1.1) 2.6
  let q26 := ops.cpow (ops.log10 (s2.1 * l)) 2.6
  let p26b := ops.cpow (ops.log10 s3.1) 2.6
  let q36 := ops.cpow (ops.log10 (s4.1 * l)) 3.6
  let p36 := ops.cpow (ops.log10 s5.1) 3.6
  let val :=
    CQ.smul s0.1
      (CQ.mul (CQ.smul (1 / (l ^ 2 - 1)) p26)
        (CQ.add
          (CQ.sub (CQ.div (CQ.ofRat (l ^ 2)) q26)
            (CQ.div (CQ.ofRat 1) p26b))
          (CQ.smul 0.5646
            (CQ.sub (CQ.div (CQ.ofRat (l ^ 2)) q36)
              (CQ.div (CQ.ofRat 1) p36)))))
  (val.re, s5.2)

/-- `Rocket.fin_friction_drag(h)` as a state transformer. -/
def Rocket.fin_friction_drag_st (ops : MathOps) (r : Rocket) (h : ℚ) :
    ℚ × Rocket :=
  let s := r.C_f_lambda_st ops h
  (s.1 *
    (1 + 60 * (s.2.fin_thickness / s.2.fin_height_long) ^ 4 +
      0.8 * (1 + 5 * ((s.2.x / s.2.fin_height_long) ^ 2)) *
        (s.2.fin_thickness / s.2.fin_height_long) *
        (4 * s.2.number_of_fins *
            (s.2.fin_length / (s.2.fin_height_long + s.2.fin_height_short)) /
          (ops.pi * s.2.diameter ^ 2))), s.2)

/-- `Rocket.protuberance_friction_drag()` as a state transformer. -/
def Rocket.protuberance_friction_drag_st (r : Rocket) : ℚ × Rocket := (0, r)

/-- `Rocket.excrescencies_friction_drag()` as a state transformer. -/
def Rocket.excrescencies_friction_drag_st (ops : MathOps) (r : Rocket) :
    ℚ × Rocket :=
  (r.excrescencies_friction_drag ops, r)

/-- `Rocket.skin_friction_drag(h)` as a state transformer. -/
def Rocket.skin_friction_drag_st (ops : MathOps) (r : Rocket) (h : ℚ) :
    ℚ × Rocket :=
  let s1 := r.body_friction_drag_st ops h
  let s2 := s1.2.fin_friction_drag_st ops h
  let s3 := s2.2.protuberance_friction_drag_st
  let s4 := s3.2.excrescencies_friction_drag_st ops
  (s1.1 + s4.2.K_f * s2.1 + s4.2.K_f * s3.1 + s4.1, s4.2)

/-- `Rocket.n()` as a state transformer. -/
def Rocket.n_st (ops : MathOps) (r : Rocket) : ℚ × Rocket := (r.n ops, r)

/-- `Rocket.K_b()` as a state transformer. -/
def Rocket.K_b_st (ops : MathOps) (r : Rocket) : ℚ × Rocket := (r.K_b ops, r)

/-- `Rocket.base_drag(h)` as a state transformer. -/
def Rocket.base_drag_st (ops : MathOps) (r : Rocket) (h : ℚ) : ℚ × Rocket :=
  let s1 := r.K_b_st ops
  let s2 := s1.2.n_st ops
  let s3 := s2.2.skin_friction_drag_st ops h
  let b_d := s1.1 *
    (ops.rpow (s3.2.boat_tail_radius / s3.2.radius) s2.1 /
      ops.rpow s3.1 (1 / 2))
  if s3.2.M > 0.6 then
    if s3.2.M < 1 then (b_d * (1 + 215.8 * (s3.2.M - 0.6) ^ 6), s3.2)
    else if s3.2.M < 2 then
      (b_d * (2.0881 * (s3.2.M - 1) ^ 3 - 3.7938 * (s3.2.M - 1) ^ 2 +
        1.4618 * (s3.2.M - 1) + 1.883917), s3.2)
    else
      (b_d * (0.297 * (s3.2.M - 2) ^ 3 - 0.7937 * (s3.2.M - 2) ^ 2 -
        0.1115 * (s3.2.M - 2) + 1.64006), s3.2)
  else (b_d, s3.2)

/-- `Rocket.M_d()` as a state transformer. -/
def Rocket.M_d_st (r : Rocket) : ℚ × Rocket := (r.M_d, r)

/-- `Rocket.M_f()` as a state transformer. -/
def Rocket.M_f_st (ops : MathOps) (r : Rocket) : ℚ × Rocket := (r.M_f ops, r)

/-- `Rocket.C_d_max()` as a state transformer. -/
def Rocket.C_d_max_st (ops : MathOps) (r : Rocket) : ℚ × Rocket :=
  (r.C_d_max ops, r)

/-- `Rocket.transonic_wave_drag()` as a state transformer. -/
def Rocket.transonic_wave_drag_st (ops : MathOps) (r : Rocket) : ℚ × Rocket :=
  let s1 := r.M_d_st
  let s2 := s1.2.M_f_st ops
  if s1.1 ≤ s2.2.M ∧ s2.2.M ≤ s2.1 then s2.2.C_d_max_st ops else (0, s2.2)

/-- `Rocket.supersonic_wave_drag()` as a state transformer. -/
def Rocket.supersonic_wave_drag_st (r : Rocket) : ℚ × Rocket := (0, r)

/-- `Rocket.drag_coefficient(h)` as a state transformer.  The
`if self.verbose or True:` print block evaluates the four contributions
once for display; the returned sum evaluates them again. -/
def Rocket.drag_coefficient_st (ops : MathOps) (r : Rocket) (h : ℚ) :
    ℚ × Rocket :=
  let p1 := r.skin_friction_drag_st ops h
  let p2 := p1.2.base_drag_st ops h
  let p3 := p2.2.transonic_wave_drag_st ops
  let p4 := p3.2.supersonic_wave_drag_st
  let s1 := p4.2.skin_friction_drag_st ops h
  let s2 := s1.2.base_drag_st ops h
  let s3 := s2.2.transonic_wave_drag_st ops
  let s4 := s3.2.supersonic_wave_drag_st
  (s1.1 + s2.1 + s3.1 + s4.1, s4.2)

/- ===== driver (`__main__`) of drag.py ===== -/

/-- One telemetry row of `prometheus.csv`: Mach number, altitude (ft),
measured drag coefficient. -/
structure FlightRow where
  mach : ℚ
  altitude : ℚ
  cd : ℚ
deriving DecidableEq

/-- The reference-dataset filter of the driver: a row is skipped when
`last_mach > row.mach` (the row is retained otherwise, and `last_mach`
becomes its Mach number); retained rows contribute their Mach number and
CD to the plotted curves.  `last_mach` starts at `-100`. -/
def filterRows : ℚ → List FlightRow → List (ℚ × ℚ)
  | _, [] => []
  | last_mach, row :: rest =>
      if last_mach > row.mach then filterRows last_mach rest
      else (row.mach, row.cd) :: filterRows row.mach rest

/- ===== spec-side definitions (for comparison against the source) ===== -/

/-- Modelled from the spec: the three speed-of-sound segment formulas
`−0.004h+1116.45` (h ≤ 37000), `968.08` (37000 < h ≤ 64000) and
`0.0007h+924.99` (h > 64000), stated separately so adjacent segments can
be compared at the boundaries. -/
def aLow (h : ℚ) : ℚ := -0.004 * h + 1116.45

/-- Modelled from the spec: the middle (constant) speed-of-sound segment. -/
def aMid : ℚ := 968.08

/-- Modelled from the spec: the upper speed-of-sound segment. -/
def aHigh (h : ℚ) : ℚ := 0.0007 * h + 924.99

/-- Modelled from the spec: base drag as §4.2 words it —
`K_b × (boat_tail_radius/reference_radius)^n / sqrt(skin_friction_drag(h))`
with `n = 3.6542×(L_b/d)^(−0.2733)` and
`K_b = 0.0274×atan((L_b/d)+0.0116)`, scaled by the Mach-regime multiplier
with the boundary inclusions the claim states (no multiplier for M ≤ 0.6;
`0.6 < M < 1`; `1 ≤ M < 2`; `M ≥ 2`). -/
def specBaseDrag (ops : MathOps) (r : Rocket) (h : ℚ) : ℚ :=
  let raw := 0.0274 * ops.atan (r.body_tube_length / r.diameter + 0.0116) *
    ops.rpow (r.boat_tail_radius / r.radius)
      (3.6542 * ops.rpow (r.body_tube_length / r.diameter) (-0.2733)) /
    ops.rpow (r.skin_friction_drag ops h) (1 / 2)
  if r.M ≤ 0.6 then raw
  else if 0.6 < r.M ∧ r.M < 1 then raw * (1 + 215.8 * (r.M - 0.6) ^ 6)
  else if 1 ≤ r.M ∧ r.M < 2 then
    raw * (2.0881 * (r.M - 1) ^ 3 - 3.7938 * (r.M - 1) ^ 2 +
      1.4618 * (r.M - 1) + 1.883917)
  else
    raw * (0.297 * (r.M - 2) ^ 3 - 0.7937 * (r.M - 2) ^ 2 -
      0.1115 * (r.M - 2) + 1.64006)

/-- Modelled from the spec: the `Rn*` polynomial with the squared term
`M²` that the surrounding pattern suggests, for comparison with the
source's literal `M*2`. -/
def Rn_star_squared (r : Rocket) (h : ℚ) : ℚ :=
  (r.a h * r.M * (r.body_tube_length + r.nose_cone_length) /
      (12 * r.velocity)) *
    (1 + 0.0283 * r.M - 0.043 * r.M ^ 2 + 0.2107 * r.M ^ 3 -
      0.03829 * r.M ^ 4 + 0.002709 * r.M ^ 5)

/- ===== helper lemmas ===== -/

/-- Threading `Rocket.a` leaves the object unchanged. -/
theorem a_st_eq (r : Rocket) (h : ℚ) : r.a_st h = (r.a h, r) := rfl

/-- Threading `Rocket.v` leaves the object unchanged. -/
theorem v_st_eq (ops : MathOps) (r : Rocket) (h : ℚ) :
    Rocket.v_st ops r h = (Rocket.v ops r h, r) := rfl

/-- Threading `Rocket.Rn_star` leaves the object unchanged. -/
theorem Rn_star_st_eq (r : Rocket) (h : ℚ) :
    r.Rn_star_st h = (r.Rn_star h, r) := rfl

/-- Threading `Rocket.C_f_star` leaves the object unchanged. -/
theorem C_f_star_st_eq (ops : MathOps) (r : Rocket) (h : ℚ) :
    Rocket.C_f_star_st ops r h = (r.C_f_star ops h, r) := rfl

/-- Threading `Rocket.C_f` leaves the object unchanged. -/
theorem C_f_st_eq (ops : MathOps) (r : Rocket) (h : ℚ) :
    Rocket.C_f_st ops r h = (r.C_f ops h, r) := rfl

/-- Threading `Rocket.C_f_term_star` leaves the object unchanged. -/
theorem C_f_term_star_st_eq (ops : MathOps) (r : Rocket) :
    Rocket.C_f_term_star_st ops r = (r.C_f_term_star ops, r) := rfl

/-- Threading `Rocket.C_f_term` leaves the object unchanged. -/
theorem C_f_term_st_eq (ops : MathOps) (r : Rocket) :
    Rocket.C_f_term_st ops r = (r.C_f_term ops, r) := rfl

/-- Threading `Rocket.C_f_final` leaves the object unchanged. -/
theorem C_f_final_st_eq (ops : MathOps) (r : Rocket) (h : ℚ) :
    Rocket.C_f_final_st ops r h = (r.C_f_final ops h, r) := by
  simp only [Rocket.C_f_final_st, Rocket.C_f_final, C_f_st_eq, C_f_term_st_eq]
  split_ifs <;> rfl

/-- Threading `Rocket.body_friction_drag` leaves the object unchanged. -/
theorem body_friction_drag_st_eq (ops : MathOps) (r : Rocket) (h : ℚ) :
    Rocket.body_friction_drag_st ops r h = (r.body_friction_drag ops h, r) := by
  simp only [Rocket.body_friction_drag_st, Rocket.body_friction_drag,
    C_f_final_st_eq]

/-- Threading `Rocket.R_n` leaves the object unchanged. -/
theorem R_n_st_eq (r : Rocket) (h : ℚ) : r.R_n_st h = (r.R_n h, r) := rfl

/-- Threading `Rocket.C_f_lambda` leaves the object unchanged. -/
theorem C_f_lambda_st_eq (ops : MathOps) (r : Rocket) (h : ℚ) :
    Rocket.C_f_lambda_st ops r h = (r.C_f_lambda ops h, r) := by
  simp only [Rocket.C_f_lambda_st, Rocket.C_f_lambda, C_f_final_st_eq,
    R_n_st_eq]

/-- Threading `Rocket.fin_friction_drag` leaves the object unchanged. -/
theorem fin_friction_drag_st_eq (ops : MathOps) (r : Rocket) (h : ℚ) :
    Rocket.fin_friction_drag_st ops r h = (r.fin_friction_drag ops h, r) := by
  simp only [Rocket.fin_friction_drag_st, Rocket.fin_friction_drag,
    C_f_lambda_st_eq]

/-- Threading `Rocket.protuberance_friction_drag` leaves the object
unchanged. -/
theorem protuberance_st_eq (r : Rocket) :
    r.protuberance_friction_drag_st = (r.protuberance_friction_drag, r) := rfl

/-- Threading `Rocket.excrescencies_friction_drag` leaves the object
unchanged. -/
theorem excrescencies_st_eq (ops : MathOps) (r : Rocket) :
    Rocket.excrescencies_friction_drag_st ops r =
      (r.excrescencies_friction_drag ops, r) := rfl

/-- Threading `Rocket.skin_friction_drag` leaves the object unchanged. -/
theorem skin_friction_drag_st_eq (ops : MathOps) (r : Rocket) (h : ℚ) :
    Rocket.skin_friction_drag_st ops r h = (r.skin_friction_drag ops h, r) := by
  simp only [Rocket.skin_friction_drag_st, Rocket.skin_friction_drag,
    body_friction_drag_st_eq, fin_friction_drag_st_eq, protuberance_st_eq,
    excrescencies_st_eq]

/-- Threading `Rocket.n` leaves the object unchanged. -/
theorem n_st_eq (ops : MathOps) (r : Rocket) :
    Rocket.n_st ops r = (r.n ops, r) := rfl

/-- Threading `Rocket.K_b` leaves the object unchanged. -/
theorem K_b_st_eq (ops : MathOps) (r : Rocket) :
    Rocket.K_b_st ops r = (r.K_b ops, r) := rfl

/-- Threading `Rocket.base_drag` leaves the object unchanged. -/
theorem base_drag_st_eq (ops : MathOps) (r : Rocket) (h : ℚ) :
    Rocket.base_drag_st ops r h = (r.base_drag ops h, r) := by
  simp only [Rocket.base_drag_st, Rocket.base_drag, K_b_st_eq, n_st_eq,
    skin_friction_drag_st_eq]
  split_ifs <;> rfl

/-- Threading `Rocket.M_d` leaves the object unchanged. -/
theorem M_d_st_eq (r : Rocket) : r.M_d_st = (r.M_d, r) := rfl

/-- Threading `Rocket.M_f` leaves the object unchanged. -/
theorem M_f_st_eq (ops : MathOps) (r : Rocket) :
    Rocket.M_f_st ops r = (r.M_f ops, r) := rfl

/-- Threading `Rocket.C_d_max` leaves the object unchanged. -/
theorem C_d_max_st_eq (ops : MathOps) (r : Rocket) :
    Rocket.C_d_max_st ops r = (r.C_d_max ops, r) := rfl

/-- Threading `Rocket.transonic_wave_drag` leaves the object unchanged. -/
theorem transonic_st_eq (ops : MathOps) (r : Rocket) :
    Rocket.transonic_wave_drag_st ops r = (r.transonic_wave_drag ops, r) := by
  simp only [Rocket.transonic_wave_drag_st, Rocket.transonic_wave_drag,
    M_d_st_eq, M_f_st_eq, C_d_max_st_eq]
  split_ifs <;> rfl

/-- Threading `Rocket.supersonic_wave_drag` leaves the object unchanged. -/
theorem supersonic_st_eq (r : Rocket) :
    r.supersonic_wave_drag_st = (r.supersonic_wave_drag, r) := rfl

/-- Every row the reference filter retains has a Mach number at least the
threshold it was filtered against. -/
theorem filterRows_ge (rows : List FlightRow) :
    ∀ (last : ℚ) (p : ℚ × ℚ), p ∈ filterRows last rows → last ≤ p.1 := by
  induction rows with
  | nil => intro last p hp; simp [filterRows] at hp
  | cons row rest ih =>
      intro last p hp
      rw [filterRows] at hp
      split_ifs at hp with hgt
      · exact ih last p hp
      · rcases List.mem_cons.mp hp with hEq | hMem
        · subst hEq; exact not_lt.mp hgt
        · exact le_trans (not_lt.mp hgt) (ih row.mach p hMem)

/-- The Mach numbers the reference filter retains are non-decreasing. -/
theorem filterRows_chain (rows : List FlightRow) :
    ∀ last : ℚ, List.Chain' (fun p q : ℚ × ℚ => p.1 ≤ q.1)
      (filterRows last rows) := by
  induction rows with
  | nil => intro last; simp [filterRows]
  | cons row rest ih =>
      intro last
      rw [filterRows]
      split_ifs with hgt
      · exact ih last
      · refine List.chain'_cons'.mpr ⟨?_, ih row.mach⟩
        intro q hq
        exact filterRows_ge rest row.mach q (List.mem_of_mem_head? hq)

/- ===== claim theorems ===== -/

/-- Claim C1: whenever the main-loop guard of `Avionics.main_process` is
evaluated, another iteration of the body runs exactly when the shutdown
flag is false or the FIDI flag is true; with shutdown set and FIDI clear
the loop terminates at once, and with FIDI set another iteration always
runs, whatever the shutdown flag. -/
theorem avionics_main_loop_guard (act : AvConfig → AvConfig) (fuel : Nat)
    (c : AvConfig) :
    (mainGuard c = true ↔ (c.shutdown = false ∨ c.FIDI = true)) ∧
    (c.shutdown = true → c.FIDI = false → main_process act (fuel + 1) c = c) ∧
    (c.FIDI = true →
      main_process act (fuel + 1) c =
        main_process act fuel (loopBody act c)) := by
  refine ⟨?_, ?_, ?_⟩
  · simp [mainGuard]
  · intro hs hf
    simp [main_process, mainGuard, hs, hf]
  · intro hf
    simp [main_process, mainGuard, hf]

/-- Witness for C1: with shutdown set and FIDI clear, the loop returns the
configuration unchanged. -/
theorem avionics_main_loop_guard_witness :
    main_process id 4 ⟨true, false, false, false, "IDLE", "IDLE"⟩ =
      ⟨true, false, false, false, "IDLE", "IDLE"⟩ :=
  (avionics_main_loop_guard id 3
    ⟨true, false, false, false, "IDLE", "IDLE"⟩).2.1 rfl rfl

/-- Claim C3, counterexample: the speed-of-sound segments do not agree at
the boundaries.  At h = 37000 the low segment gives 968.45 while the
middle segment gives 968.08 (the function itself jumps from 968.45 at
h = 37000 to 968.08 at h = 37001), and at h = 64000 the upper segment
gives 969.79 against the middle segment's 968.08. -/
theorem speed_of_sound_boundary_jump :
    Rocket.a (Rocket.init ops0 false 0) 37000 = 968.45 ∧
    Rocket.a (Rocket.init ops0 false 0) 37001 = 968.08 ∧
    Rocket.a (Rocket.init ops0 false 0) 64000 = 968.08 ∧
    Rocket.a (Rocket.init ops0 false 0) 64001 = 969.7907 ∧
    decide (aLow 37000 = aMid) = false ∧
    decide (aHigh 64000 = aMid) = false := by
  refine ⟨?_, ?_, ?_, ?_, ?_, ?_⟩
  · norm_num [Rocket.a]
  · norm_num [Rocket.a]
  · norm_num [Rocket.a]
  · norm_num [Rocket.a]
  · rw [decide_eq_false_iff_not]; norm_num [aLow, aMid]
  · rw [decide_eq_false_iff_not]; norm_num [aHigh, aMid]

/-- Claim C3, amended: `a(h)` equals the stated piecewise-linear formulas,
but it is not continuous at the segment boundaries: the adjacent segment
values differ by 0.37 ft/s at h = 37000 and by 1.71 ft/s at h = 64000. -/
theorem speed_of_sound_piecewise_with_jumps :
    (∀ (r : Rocket) (h : ℚ),
      r.a h = if h ≤ 37000 then aLow h else if h ≤ 64000 then aMid
        else aHigh h) ∧
    aLow 37000 - aMid = 0.37 ∧ aHigh 64000 - aMid = 1.71 := by
  refine ⟨fun r h => rfl, ?_, ?_⟩
  · norm_num [aLow, aMid]
  · norm_num [aHigh, aMid]

/-- Claim C4, counterexample: the reference filter keeps a row whose Mach
number equals (does not strictly exceed) the last retained one — on two
rows of Mach 0.1 both are retained, so the retained rows are not strictly
increasing and two of them share a Mach number. -/
theorem filter_retains_equal_mach :
    (filterRows (-100) [⟨0.1, 0, 7⟩, ⟨0.1, 0, 8⟩]).map Prod.fst =
      [0.1, 0.1] ∧
    decide (List.Chain' (fun p q : ℚ × ℚ => p.1 < q.1)
      (filterRows (-100) [⟨0.1, 0, 7⟩, ⟨0.1, 0, 8⟩])) = false := by
  constructor
  · norm_num [filterRows]
  · rw [decide_eq_false_iff_not]
    have hfil : filterRows (-100) [⟨0.1, 0, 7⟩, ⟨0.1, 0, 8⟩] =
        [((0.1 : ℚ), (7 : ℚ)), (0.1, 8)] := by norm_num [filterRows]
    rw [hfil]
    simp [List.chain'_cons]

/-- Claim C4, amended: the driver's reference filter retains a row exactly
when its Mach number is at least (not strictly above) the last retained
Mach number, starting from the sentinel −100; the retained Mach sequence
is therefore non-decreasing rather than strictly increasing (equal Mach
numbers are kept), and the example trace [0.1, 0.3, 0.2, 0.5] still
yields [0.1, 0.3, 0.5]. -/
theorem filter_retains_nondecreasing_mach :
    (filterRows (-100) [⟨0.1, 0, 7⟩, ⟨0.3, 0, 8⟩, ⟨0.2, 0, 9⟩, ⟨0.5, 0, 10⟩] =
      [(0.1, 7), (0.3, 8), (0.5, 10)]) ∧
    (∀ (last : ℚ) (rows : List FlightRow) (p : ℚ × ℚ),
      p ∈ filterRows last rows → last ≤ p.1) ∧
    (∀ (last : ℚ) (rows : List FlightRow),
      List.Chain' (fun p q : ℚ × ℚ => p.1 ≤ q.1) (filterRows last rows)) ∧
    (∀ (last m alt cd : ℚ) (rows : List FlightRow),
      (last ≤ m → filterRows last (⟨m, alt, cd⟩ :: rows) =
        (m, cd) :: filterRows m rows) ∧
      (m < last → filterRows last (⟨m, alt, cd⟩ :: rows) =
        filterRows last rows)) := by
  refine ⟨?_, ?_, ?_, ?_⟩
  · norm_num [filterRows]
  · intro last rows p hp
    exact filterRows_ge rows last p hp
  · intro last rows
    exact filterRows_chain rows last
  · intro last m alt cd rows
    constructor
    · intro hle
      rw [filterRows, if_neg (not_lt.mpr hle)]
    · intro hlt
      rw [filterRows, if_pos hlt]

/-- Witness for the amended C4: a single row of Mach 0.1 is retained
against the initial sentinel −100. -/
theorem filter_retains_nondecreasing_mach_witness :
    filterRows (-100) [⟨0.1, 0, 7⟩] = [(0.1, 7)] := by
  have hstep :=
    (filter_retains_nondecreasing_mach.2.2.2 (-100) 0.1 0 7 []).1
      (by norm_num)
  simpa [filterRows] using hstep

/-- Claim C5: for every rocket and altitude, `Rn_star(h)` is the bracket
`a(h)·M·(L_b+L_n)/(12·V)` times the polynomial whose second-order term is
the literal `0.043·(M·2)` (that is, −0.086·M) of the source — and on a
concrete rocket (Mach 1/2, default geometry, altitude 500) this value is
strictly below the variant that uses the squared term `M²`, so the two
readings really differ. -/
theorem Rn_star_uses_times_two :
    (∀ (r : Rocket) (h : ℚ),
      r.Rn_star h =
        (r.a h * r.M * (r.body_tube_length + r.nose_cone_length) /
            (12 * r.velocity)) *
          (1 + 0.0283 * r.M - 0.043 * (r.M * 2) + 0.2107 * r.M ^ 3 -
            0.03829 * r.M ^ 4 + 0.002709 * r.M ^ 5)) ∧
    (Rocket.init ops0 false (1 / 2)).Rn_star 500 <
      Rn_star_squared (Rocket.init ops0 false (1 / 2)) 500 := by
  constructor
  · intro r h
    unfold Rocket.Rn_star
    ring
  · norm_num [Rocket.init, Rocket.Rn_star, Rn_star_squared, Rocket.a,
      machConv]

/-- Claim C6, counterexample: the configuration constructor sets `DEBUG`
to true while the module-level default constant is false, so the two
sources of defaults disagree on `DEBUG`. -/
theorem config_debug_default_mismatch :
    Config.init.DEBUG = true ∧ ConfigDefaults.DEBUG = false ∧
    decide (Config.init.DEBUG = ConfigDefaults.DEBUG) = false := by
  refine ⟨rfl, rfl, ?_⟩
  rw [decide_eq_false_iff_not]
  intro hEq
  simp [Config.init, ConfigDefaults.DEBUG] at hEq

/-- Claim C6, amended: the constructor's four timing/altitude defaults
(`PARACHUTE_CHARGE_TIME` 0.5, `APOGEE_DELAY` 0, `MAIN_ALTITUDE` 1000,
`MAIN_DELAY` 0) equal the module-level constants, but `DEBUG` does not:
the constructor sets it to true while the module-level default is false,
so the two sources agree on only four of the five named values. -/
theorem config_defaults_agree_except_debug :
    Config.init.PARACHUTE_CHARGE_TIME = ConfigDefaults.PARACHUTE_CHARGE_TIME ∧
    Config.init.APOGEE_DELAY = ConfigDefaults.APOGEE_DELAY ∧
    Config.init.MAIN_ALTITUDE = ConfigDefaults.MAIN_ALTITUDE ∧
    Config.init.MAIN_DELAY = ConfigDefaults.MAIN_DELAY ∧
    Config.init.DEBUG = true ∧ ConfigDefaults.DEBUG = false :=
  ⟨rfl, rfl, rfl, rfl, rfl, rfl⟩

/-- Claim C7: for every oracle, rocket and altitude, `base_drag(h)` equals
the spec's formula — `K_b · (boat_tail_radius/radius)^n / sqrt(sfd(h))`
with `n = 3.6542·(L_b/d)^(−0.2733)` and
`K_b = 0.0274·atan((L_b/d)+0.0116)` — scaled by the Mach-regime multiplier
with exactly the claimed boundary inclusions (none for M ≤ 0.6; the sextic
for 0.6 < M < 1; the first cubic for 1 ≤ M < 2; the second for M ≥ 2). -/
theorem base_drag_matches_spec_formula (ops : MathOps) (r : Rocket) (h : ℚ) :
    r.base_drag ops h = specBaseDrag ops r h := by
  unfold Rocket.base_drag specBaseDrag Rocket.K_b Rocket.n
  rcases le_or_lt r.M 0.6 with hle | hgt
  · rw [if_neg (not_lt.mpr hle), if_pos hle]; ring
  · rcases lt_or_le r.M 1 with h1 | h1
    · rw [if_pos hgt, if_pos h1, if_neg (not_le.mpr hgt),
        if_pos ⟨hgt, h1⟩]
      ring
    · rcases lt_or_le r.M 2 with h2 | h2
      · rw [if_pos hgt, if_neg (not_lt.mpr h1), if_pos h2,
          if_neg (not_le.mpr hgt),
          if_neg (fun hc => absurd hc.2 (not_lt.mpr h1)), if_pos ⟨h1, h2⟩]
        ring
      · rw [if_pos hgt, if_neg (not_lt.mpr h1), if_neg (not_lt.mpr h2),
          if_neg (not_le.mpr hgt),
          if_neg (fun hc => absurd hc.2 (not_lt.mpr h1)),
          if_neg (fun hc => absurd hc.2 (not_lt.mpr h2))]
        ring

/-- Claim C8: under the default geometry (boat-tail radius equal to the
reference radius, both 0.1666) the base-drag ratio term
`(boat_tail_radius/radius)^n` is exactly 1 for every real exponent. -/
theorem base_drag_ratio_term_one (ops : MathOps) (x : ℝ) :
    (((Rocket.init ops false 0).boat_tail_radius /
        (Rocket.init ops false 0).radius : ℚ) : ℝ) ^ x = 1 := by
  have hq : ((Rocket.init ops false 0).boat_tail_radius /
      (Rocket.init ops false 0).radius : ℚ) = 1 := by
    simp only [Rocket.init]
    norm_num
  rw [hq]
  push_cast
  exact Real.one_rpow x

/-- Claim C9: evaluating `drag_coefficient(h)` — with every method it
transitively calls threaded through the object state in source order —
returns the purely functional value and leaves the `Rocket` object
exactly as constructed: no field is mutated outside `__init__`. -/
theorem drag_coefficient_preserves_rocket (ops : MathOps) (r : Rocket)
    (h : ℚ) :
    Rocket.drag_coefficient_st ops r h = (r.drag_coefficient ops h, r) := by
  simp only [Rocket.drag_coefficient_st, Rocket.drag_coefficient,
    skin_friction_drag_st_eq, base_drag_st_eq, transonic_st_eq,
    supersonic_st_eq]

/-- Claim C10: the constructor treats Mach 0 as no override — for m ≠ 0
the instance has M = m and velocity = m/0.0008957066031914082, while for
m = 0 (the default, or an explicitly passed zero) velocity is 143.4 and
M = 143.4·0.0008957066031914082; consequently no constructed rocket ever
has M = 0. -/
theorem rocket_init_mach_override (ops : MathOps) (vb : Bool) (m : ℚ) :
    (m ≠ 0 → (Rocket.init ops vb m).M = m ∧
      (Rocket.init ops vb m).velocity = m / machConv) ∧
    ((Rocket.init ops vb 0).velocity = 143.4 ∧
      (Rocket.init ops vb 0).M = 143.4 * machConv) ∧
    (Rocket.init ops vb m).M ≠ 0 := by
  refine ⟨?_, ?_, ?_⟩
  · intro hm
    simp only [Rocket.init]
    simp [hm]
  · simp [Rocket.init]
  · rcases eq_or_ne m 0 with hm | hm
    · subst hm
      simp only [Rocket.init]
      norm_num [machConv]
    · simp [Rocket.init, hm]

/-- Witness for C10: at the explicit Mach 2 the override branch gives
M = 2 and the derived airspeed. -/
theorem rocket_init_mach_override_witness :
    (Rocket.init ops0 false 2).M = 2 ∧
      (Rocket.init ops0 false 2).velocity = 2 / machConv :=
  (rocket_init_mach_override ops0 false 2).1 (by norm_num)
